import Mathlib

/-!
Verification of the startup database bootstrap module
`backend/apps/web/internal/db.py` of open-webui.

The module body runs once at import time. It:
1. checks whether `<DATA_DIR>/ollama.db` exists and, if so, renames it to
   `<DATA_DIR>/webui.db` (POSIX `os.rename`, which silently replaces an
   existing destination file) and logs a migration message;
2. branches on `DB_ENGINE`: when it equals `"postgres"` it builds a
   `PostgresqlExtDatabase` from the structured parameters; otherwise it
   builds a handle from `DATABASE_URL` via `connect`, logs the backend
   class, runs the `peewee_migrate` `Router`, and reconnects with
   `reuse_if_open=True`.

The embedding models the filesystem as a map from paths to file contents,
external library calls through an oracle that says whether each call
raises (and how `connect` resolves a URL to a backend class name), and the
run as a record of: the module outcome (completed or raised), the final
value of the global `DB`, the final filesystem, and the ordered trace of
performed effects.
-/

namespace OpenWebUIDB

/-- The configuration names imported from `config` by the module.
All values are kept as strings, as delivered by the configuration layer. -/
structure Config where
  DATA_DIR : String
  DB_ENGINE : String
  DB_NAME : String
  DB_USER : String
  DB_PASSWORD : String
  DB_HOST : String
  DB_PORT : String
  DB_SCHEMA : String
  DATABASE_URL : String

/-- The filesystem: maps an absolute path to the content of the file
stored there, `none` when no file exists at that path. -/
abbrev FS := String → Option String

/-- `os.path.exists`. -/
def FS.pathExists (fs : FS) (p : String) : Bool :=
  (fs p).isSome

/-- POSIX rename effect on the filesystem: the destination receives the
source's content — silently replacing any file already at the
destination — and the source is removed. -/
def FS.rename (fs : FS) (src dst : String) : FS :=
  fun p => if p = dst then fs src else if p = src then none else fs p

/-- The observable effects the module performs, in order. -/
inductive Event where
  | renamed (src dst : String)
  | logInfo (msg : String)
  | connectPostgres (name user password host port schema : String)
  | connectUrl (url : String)
  | routerRun (migrateDir : String)
  | dbConnect (reuseIfOpen : Bool)
deriving DecidableEq

/-- The connection handle the module can bind to the global `DB`. -/
inductive Handle where
  | postgres (name user password host port schema : String)
  | url (backendClass : String) (url : String)
deriving DecidableEq

/-- Behaviour of the external collaborators during one run: whether each
fallible call raises (and with what message), and how `connect` resolves
a database URL to the backend class used in the log line. Constructing a
`PostgresqlExtDatabase` does not open a connection in peewee, so it has
no failure entry. -/
structure Oracle where
  renameErr : Option String
  connectErr : Option String
  routerRunErr : Option String
  dbConnectErr : Option String
  backendClass : String → String

/-- Result of one run of the module body: whether it completed or raised,
the final value of the module global `DB`, the final filesystem, and the
trace of performed effects. -/
structure RunResult where
  outcome : Except String Unit
  db : Option Handle
  fs : FS
  trace : List Event

/-- Path of the legacy database file: `f"{DATA_DIR}/ollama.db"`. -/
def oldPath (cfg : Config) : String :=
  cfg.DATA_DIR ++ "/ollama.db"

/-- Destination path of the rename: `f"{DATA_DIR}/webui.db"`. -/
def newPath (cfg : Config) : String :=
  cfg.DATA_DIR ++ "/webui.db"

/-- The log line emitted after a successful legacy rename. -/
def migratedMsg : String :=
  "Database migrated from Ollama-WebUI successfully."

/-- The log line emitted on the generic path, naming the backend class. -/
def connectedMsg (cls : String) : String :=
  "Connected to a " ++ cls ++ " database."

/-- The migrations directory passed to the `Router`. -/
def migrateDir : String :=
  "apps/web/internal/migrations"

/-- `os.rename`: raises when the oracle injects an OS error or when the
source does not exist; otherwise performs the POSIX rename, which
silently replaces any existing destination. -/
def osRename (o : Oracle) (fs : FS) (src dst : String) : Except String FS :=
  match o.renameErr with
  | some e => Except.error e
  | none =>
    if FS.pathExists fs src then Except.ok (FS.rename fs src dst)
    else Except.error "FileNotFoundError"

/-- Lines 12-18 of the module: check whether the legacy file exists and,
if so, rename it and log; otherwise do nothing. Returns the filesystem
and the effects performed, or the raised error. -/
def legacyStep (cfg : Config) (o : Oracle) (fs0 : FS) :
    Except String (FS × List Event) :=
  if FS.pathExists fs0 (oldPath cfg) then
    match osRename o fs0 (oldPath cfg) (newPath cfg) with
    | Except.error e => Except.error e
    | Except.ok fs1 =>
      Except.ok (fs1, [Event.renamed (oldPath cfg) (newPath cfg),
                       Event.logInfo migratedMsg])
  else
    Except.ok (fs0, [])

/-- Lines 21-37 of the module: `DB = None`, then the engine branch. On
the postgres branch, build the handle from the structured parameters and
stop. Otherwise, `connect(DATABASE_URL)` (which can raise before `DB` is
assigned), log the backend class, run the migration `Router`, and finally
`DB.connect(reuse_if_open=True)`. Any raise aborts the run there. -/
def enginePhase (cfg : Config) (o : Oracle) (fs1 : FS) : RunResult :=
  if cfg.DB_ENGINE = "postgres" then
    { outcome := Except.ok ()
      db := some (Handle.postgres cfg.DB_NAME cfg.DB_USER cfg.DB_PASSWORD
                    cfg.DB_HOST cfg.DB_PORT cfg.DB_SCHEMA)
      fs := fs1
      trace := [Event.connectPostgres cfg.DB_NAME cfg.DB_USER cfg.DB_PASSWORD
                  cfg.DB_HOST cfg.DB_PORT cfg.DB_SCHEMA] }
  else
    match o.connectErr with
    | some e => { outcome := Except.error e, db := none, fs := fs1, trace := [] }
    | none =>
      let cls := o.backendClass cfg.DATABASE_URL
      let h := Handle.url cls cfg.DATABASE_URL
      match o.routerRunErr with
      | some e =>
        { outcome := Except.error e, db := some h, fs := fs1
          trace := [Event.connectUrl cfg.DATABASE_URL,
                    Event.logInfo (connectedMsg cls)] }
      | none =>
        match o.dbConnectErr with
        | some e =>
          { outcome := Except.error e, db := some h, fs := fs1
            trace := [Event.connectUrl cfg.DATABASE_URL,
                      Event.logInfo (connectedMsg cls),
                      Event.routerRun migrateDir] }
        | none =>
          { outcome := Except.ok (), db := some h, fs := fs1
            trace := [Event.connectUrl cfg.DATABASE_URL,
                      Event.logInfo (connectedMsg cls),
                      Event.routerRun migrateDir,
                      Event.dbConnect true] }

/-- One run of the whole module body: the legacy-file step followed, when
it did not raise, by the engine branch. A raise in the legacy step leaves
`DB` at its initial `None` and the filesystem untouched. -/
def bootstrap (cfg : Config) (o : Oracle) (fs0 : FS) : RunResult :=
  match legacyStep cfg o fs0 with
  | Except.error e => { outcome := Except.error e, db := none, fs := fs0, trace := [] }
  | Except.ok (fs1, tr1) =>
    let r := enginePhase cfg o fs1
    { r with trace := tr1 ++ r.trace }

/-! ### Concrete fixtures used by witness and counterexample theorems -/

/-- An oracle under which no external call raises and `connect` resolves
every URL to peewee's `SqliteDatabase` class. -/
def okOracle : Oracle :=
  { renameErr := none, connectErr := none, routerRunErr := none,
    dbConnectErr := none, backendClass := fun _ => "SqliteDatabase" }

/-- An oracle whose OS rename raises a permission error. -/
def failRenameOracle : Oracle :=
  { okOracle with renameErr := some "PermissionError" }

/-- An oracle whose migration `Router` run raises. -/
def failRouterOracle : Oracle :=
  { okOracle with routerRunErr := some "MigrationError" }

/-- A configuration selecting the postgres engine. -/
def pgConfig : Config :=
  { DATA_DIR := "/data", DB_ENGINE := "postgres", DB_NAME := "webui",
    DB_USER := "admin", DB_PASSWORD := "pw", DB_HOST := "dbhost",
    DB_PORT := "5432", DB_SCHEMA := "public",
    DATABASE_URL := "sqlite:////data/webui.db" }

/-- The same configuration with the generic (sqlite) engine selected. -/
def sqliteConfig : Config :=
  { pgConfig with DB_ENGINE := "sqlite" }

/-- The same configuration with the case variant `"Postgres"`. -/
def casePgConfig : Config :=
  { pgConfig with DB_ENGINE := "Postgres" }

/-- A filesystem holding only the legacy Ollama-WebUI database file. -/
def legacyFS : FS :=
  fun p => if p = "/data/ollama.db" then some "legacy-data" else none

/-- A filesystem with no files at all. -/
def emptyFS : FS :=
  fun _ => none

/-- A filesystem where both the legacy file and a current `webui.db`
exist, with different contents. -/
def bothFS : FS :=
  fun p =>
    if p = "/data/ollama.db" then some "legacy-data"
    else if p = "/data/webui.db" then some "precious-data"
    else none

/-! ### Helper lemmas -/

/-- The two fixed paths differ: the suffixes have different lengths. -/
theorem oldPath_ne_newPath (cfg : Config) : oldPath cfg ≠ newPath cfg := by
  intro h
  have hl := congrArg String.length h
  have h1 : ("/ollama.db" : String).length = 10 := rfl
  have h2 : ("/webui.db" : String).length = 9 := rfl
  simp only [oldPath, newPath, String.length_append, h1, h2] at hl
  omega

/-- The generic-path connection log line never coincides with the legacy
migration log line, whatever backend class name is interpolated. -/
theorem connectedMsg_ne_migratedMsg (cls : String) :
    connectedMsg cls ≠ migratedMsg := by
  intro h
  have h1 : (connectedMsg cls).data.head? = migratedMsg.data.head? := by rw [h]
  have h2 : (connectedMsg cls).data.head? = some 'C' := rfl
  have h3 : migratedMsg.data.head? = some 'D' := rfl
  rw [h2, h3] at h1
  exact absurd h1 (by decide)

/-- Symmetric form of `connectedMsg_ne_migratedMsg`, for rewriting. -/
theorem migratedMsg_ne_connectedMsg (cls : String) :
    migratedMsg ≠ connectedMsg cls :=
  fun h => connectedMsg_ne_migratedMsg cls h.symm

/-- After the POSIX rename, no file remains at the source path. -/
theorem FS.pathExists_rename_src (fs : FS) (src dst : String) (h : src ≠ dst) :
    FS.pathExists (FS.rename fs src dst) src = false := by
  simp [FS.pathExists, FS.rename, h]

/-- After the POSIX rename, the destination holds the source's content. -/
theorem FS.rename_dst (fs : FS) (src dst : String) :
    FS.rename fs src dst dst = fs src := by
  simp [FS.rename]

/-- Legacy step when no file exists at the old path: nothing happens. -/
theorem legacyStep_absent (cfg : Config) (o : Oracle) (fs0 : FS)
    (h : FS.pathExists fs0 (oldPath cfg) = false) :
    legacyStep cfg o fs0 = Except.ok (fs0, []) := by
  simp [legacyStep, h]

/-- Legacy step when the file exists and the OS rename succeeds. -/
theorem legacyStep_present_ok (cfg : Config) (o : Oracle) (fs0 : FS)
    (h : FS.pathExists fs0 (oldPath cfg) = true) (hren : o.renameErr = none) :
    legacyStep cfg o fs0 =
      Except.ok (FS.rename fs0 (oldPath cfg) (newPath cfg),
                 [Event.renamed (oldPath cfg) (newPath cfg),
                  Event.logInfo migratedMsg]) := by
  simp [legacyStep, h, osRename, hren]

/-- Legacy step when the file exists but the OS rename raises. -/
theorem legacyStep_present_err (cfg : Config) (o : Oracle) (fs0 : FS) (e : String)
    (h : FS.pathExists fs0 (oldPath cfg) = true) (hren : o.renameErr = some e) :
    legacyStep cfg o fs0 = Except.error e := by
  simp [legacyStep, h, osRename, hren]

/-- The engine phase emits no rename event and no migration log line. -/
theorem enginePhase_no_rename (cfg : Config) (o : Oracle) (fs1 : FS) :
    (∀ s d, Event.renamed s d ∉ (enginePhase cfg o fs1).trace) ∧
    Event.logInfo migratedMsg ∉ (enginePhase cfg o fs1).trace := by
  unfold enginePhase
  split
  · simp
  · rcases o.connectErr with _ | e
    · rcases o.routerRunErr with _ | e
      · rcases o.dbConnectErr with _ | e
        · simp [migratedMsg_ne_connectedMsg]
        · simp [migratedMsg_ne_connectedMsg]
      · simp [migratedMsg_ne_connectedMsg]
    · simp

/-- The engine phase never touches the filesystem. -/
theorem enginePhase_fs (cfg : Config) (o : Oracle) (fs1 : FS) :
    (enginePhase cfg o fs1).fs = fs1 := by
  unfold enginePhase
  split
  · rfl
  · rcases o.connectErr with _ | e
    · rcases o.routerRunErr with _ | e
      · rcases o.dbConnectErr with _ | e <;> rfl
      · rfl
    · rfl

/-- Engine phase on the postgres branch. -/
theorem enginePhase_postgres (cfg : Config) (o : Oracle) (fs1 : FS)
    (h : cfg.DB_ENGINE = "postgres") :
    enginePhase cfg o fs1 =
      { outcome := Except.ok ()
        db := some (Handle.postgres cfg.DB_NAME cfg.DB_USER cfg.DB_PASSWORD
                      cfg.DB_HOST cfg.DB_PORT cfg.DB_SCHEMA)
        fs := fs1
        trace := [Event.connectPostgres cfg.DB_NAME cfg.DB_USER cfg.DB_PASSWORD
                    cfg.DB_HOST cfg.DB_PORT cfg.DB_SCHEMA] } := by
  simp [enginePhase, h]

/-- Engine phase on the generic branch when nothing raises. -/
theorem enginePhase_generic_ok (cfg : Config) (o : Oracle) (fs1 : FS)
    (h : cfg.DB_ENGINE ≠ "postgres") (hc : o.connectErr = none)
    (hr : o.routerRunErr = none) (hd : o.dbConnectErr = none) :
    enginePhase cfg o fs1 =
      { outcome := Except.ok ()
        db := some (Handle.url (o.backendClass cfg.DATABASE_URL) cfg.DATABASE_URL)
        fs := fs1
        trace := [Event.connectUrl cfg.DATABASE_URL,
                  Event.logInfo (connectedMsg (o.backendClass cfg.DATABASE_URL)),
                  Event.routerRun migrateDir,
                  Event.dbConnect true] } := by
  simp [enginePhase, h, hc, hr, hd]

/-- Engine phase on the generic branch when `connect` raises:
`DB` is still `None` and no effect was performed. -/
theorem enginePhase_connect_err (cfg : Config) (o : Oracle) (fs1 : FS) (e : String)
    (h : cfg.DB_ENGINE ≠ "postgres") (hc : o.connectErr = some e) :
    enginePhase cfg o fs1 =
      { outcome := Except.error e, db := none, fs := fs1, trace := [] } := by
  simp [enginePhase, h, hc]

/-- Engine phase on the generic branch when `router.run()` raises. -/
theorem enginePhase_router_err (cfg : Config) (o : Oracle) (fs1 : FS) (e : String)
    (h : cfg.DB_ENGINE ≠ "postgres") (hc : o.connectErr = none)
    (hr : o.routerRunErr = some e) :
    enginePhase cfg o fs1 =
      { outcome := Except.error e
        db := some (Handle.url (o.backendClass cfg.DATABASE_URL) cfg.DATABASE_URL)
        fs := fs1
        trace := [Event.connectUrl cfg.DATABASE_URL,
                  Event.logInfo (connectedMsg (o.backendClass cfg.DATABASE_URL))] } := by
  simp [enginePhase, h, hc, hr]

/-- Engine phase on the generic branch when the final
`DB.connect(reuse_if_open=True)` raises. -/
theorem enginePhase_dbconnect_err (cfg : Config) (o : Oracle) (fs1 : FS) (e : String)
    (h : cfg.DB_ENGINE ≠ "postgres") (hc : o.connectErr = none)
    (hr : o.routerRunErr = none) (hd : o.dbConnectErr = some e) :
    enginePhase cfg o fs1 =
      { outcome := Except.error e
        db := some (Handle.url (o.backendClass cfg.DATABASE_URL) cfg.DATABASE_URL)
        fs := fs1
        trace := [Event.connectUrl cfg.DATABASE_URL,
                  Event.logInfo (connectedMsg (o.backendClass cfg.DATABASE_URL)),
                  Event.routerRun migrateDir] } := by
  simp [enginePhase, h, hc, hr, hd]

/-- A generic-branch engine phase that completed means no external call
raised. -/
theorem enginePhase_ok_generic (cfg : Config) (o : Oracle) (fs1 : FS)
    (h : cfg.DB_ENGINE ≠ "postgres")
    (hok : (enginePhase cfg o fs1).outcome = Except.ok ()) :
    o.connectErr = none ∧ o.routerRunErr = none ∧ o.dbConnectErr = none := by
  rcases hc : o.connectErr with _ | e
  · rcases hr : o.routerRunErr with _ | e
    · rcases hd : o.dbConnectErr with _ | e
      · exact ⟨rfl, rfl, rfl⟩
      · rw [enginePhase_dbconnect_err cfg o fs1 e h hc hr hd] at hok
        exact absurd hok (by simp)
    · rw [enginePhase_router_err cfg o fs1 e h hc hr] at hok
      exact absurd hok (by simp)
  · rw [enginePhase_connect_err cfg o fs1 e h hc] at hok
    exact absurd hok (by simp)

/-- The whole run when no legacy file exists: it is exactly the engine
phase. -/
theorem bootstrap_absent (cfg : Config) (o : Oracle) (fs0 : FS)
    (h : FS.pathExists fs0 (oldPath cfg) = false) :
    bootstrap cfg o fs0 = enginePhase cfg o fs0 := by
  unfold bootstrap
  rw [legacyStep_absent cfg o fs0 h]
  rfl

/-- The whole run when the legacy file exists and the rename succeeds:
the rename and its log line, then the engine phase on the renamed
filesystem. -/
theorem bootstrap_present_ok (cfg : Config) (o : Oracle) (fs0 : FS)
    (hex : FS.pathExists fs0 (oldPath cfg) = true) (hren : o.renameErr = none) :
    bootstrap cfg o fs0 =
      { enginePhase cfg o (FS.rename fs0 (oldPath cfg) (newPath cfg)) with
        trace := Event.renamed (oldPath cfg) (newPath cfg) ::
                 Event.logInfo migratedMsg ::
                 (enginePhase cfg o (FS.rename fs0 (oldPath cfg) (newPath cfg))).trace } := by
  unfold bootstrap
  rw [legacyStep_present_ok cfg o fs0 hex hren]
  rfl

/-- The whole run when the legacy file exists but the rename raises:
the run aborts with that error, `DB` is still `None`, the filesystem is
untouched and no effect was performed. -/
theorem bootstrap_present_err (cfg : Config) (o : Oracle) (fs0 : FS) (e : String)
    (hex : FS.pathExists fs0 (oldPath cfg) = true) (hren : o.renameErr = some e) :
    bootstrap cfg o fs0 =
      { outcome := Except.error e, db := none, fs := fs0, trace := [] } := by
  unfold bootstrap
  rw [legacyStep_present_err cfg o fs0 e hex hren]

/-! ### Claims -/

/-- C1: in a run where a file exists at `<DATA_DIR>/ollama.db` (and the
OS does not fail the rename), that file is renamed to
`<DATA_DIR>/webui.db` — afterwards the old path is empty and the new path
holds the old content — and the migration log line is emitted; in a run
where no such file exists, no rename is performed, no such log entry is
emitted, and the filesystem is untouched. -/
theorem C1_legacy_rename (cfg : Config) (o : Oracle) (fs0 : FS)
    (hren : o.renameErr = none) :
    (FS.pathExists fs0 (oldPath cfg) = true →
       Event.renamed (oldPath cfg) (newPath cfg) ∈ (bootstrap cfg o fs0).trace ∧
       Event.logInfo migratedMsg ∈ (bootstrap cfg o fs0).trace ∧
       FS.pathExists (bootstrap cfg o fs0).fs (oldPath cfg) = false ∧
       (bootstrap cfg o fs0).fs (newPath cfg) = fs0 (oldPath cfg)) ∧
    (FS.pathExists fs0 (oldPath cfg) = false →
       (∀ s d, Event.renamed s d ∉ (bootstrap cfg o fs0).trace) ∧
       Event.logInfo migratedMsg ∉ (bootstrap cfg o fs0).trace ∧
       (bootstrap cfg o fs0).fs = fs0) := by
  constructor
  · intro hex
    rw [bootstrap_present_ok cfg o fs0 hex hren]
    refine ⟨by simp, by simp, ?_, ?_⟩
    · show FS.pathExists
        (enginePhase cfg o (FS.rename fs0 (oldPath cfg) (newPath cfg))).fs
        (oldPath cfg) = false
      rw [enginePhase_fs]
      exact FS.pathExists_rename_src fs0 _ _ (oldPath_ne_newPath cfg)
    · show (enginePhase cfg o (FS.rename fs0 (oldPath cfg) (newPath cfg))).fs
        (newPath cfg) = fs0 (oldPath cfg)
      rw [enginePhase_fs]
      exact FS.rename_dst fs0 _ _
  · intro hab
    rw [bootstrap_absent cfg o fs0 hab]
    exact ⟨(enginePhase_no_rename cfg o fs0).1,
           (enginePhase_no_rename cfg o fs0).2,
           enginePhase_fs cfg o fs0⟩

/-- Witness for C1 at a concrete legacy filesystem. -/
theorem C1_legacy_rename_witness :
    okOracle.renameErr = none ∧
    FS.pathExists legacyFS (oldPath sqliteConfig) = true ∧
    Event.logInfo migratedMsg ∈ (bootstrap sqliteConfig okOracle legacyFS).trace ∧
    (bootstrap sqliteConfig okOracle legacyFS).fs (newPath sqliteConfig) =
      legacyFS (oldPath sqliteConfig) := by
  refine ⟨rfl, by decide, ?_, ?_⟩
  · exact ((C1_legacy_rename sqliteConfig okOracle legacyFS rfl).1 (by decide)).2.1
  · exact ((C1_legacy_rename sqliteConfig okOracle legacyFS rfl).1 (by decide)).2.2.2

/-- C2: with the engine kind equal to `"postgres"`, the migration
`Router` is never invoked, whatever the migrations directory holds, and
(when the OS rename does not fail) the run completes with `DB` bound to
the handle built by `PostgresqlExtDatabase` from the structured
parameters. -/
theorem C2_postgres_no_migration (cfg : Config) (o : Oracle) (fs0 : FS)
    (heng : cfg.DB_ENGINE = "postgres") :
    (∀ d, Event.routerRun d ∉ (bootstrap cfg o fs0).trace) ∧
    (o.renameErr = none →
       (bootstrap cfg o fs0).outcome = Except.ok () ∧
       (bootstrap cfg o fs0).db =
         some (Handle.postgres cfg.DB_NAME cfg.DB_USER cfg.DB_PASSWORD
                 cfg.DB_HOST cfg.DB_PORT cfg.DB_SCHEMA)) := by
  constructor
  · intro d
    cases hb : FS.pathExists fs0 (oldPath cfg) with
    | false =>
      rw [bootstrap_absent cfg o fs0 hb, enginePhase_postgres cfg o fs0 heng]
      simp
    | true =>
      rcases hre : o.renameErr with _ | e
      · rw [bootstrap_present_ok cfg o fs0 hb hre,
            enginePhase_postgres cfg o _ heng]
        simp
      · rw [bootstrap_present_err cfg o fs0 e hb hre]
        simp
  · intro hren
    cases hb : FS.pathExists fs0 (oldPath cfg) with
    | false =>
      rw [bootstrap_absent cfg o fs0 hb, enginePhase_postgres cfg o fs0 heng]
      exact ⟨rfl, rfl⟩
    | true =>
      rw [bootstrap_present_ok cfg o fs0 hb hren,
          enginePhase_postgres cfg o _ heng]
      exact ⟨rfl, rfl⟩

/-- Witness for C2 at a concrete postgres configuration. -/
theorem C2_postgres_no_migration_witness :
    pgConfig.DB_ENGINE = "postgres" ∧
    Event.routerRun migrateDir ∉ (bootstrap pgConfig okOracle emptyFS).trace ∧
    (bootstrap pgConfig okOracle emptyFS).db =
      some (Handle.postgres "webui" "admin" "pw" "dbhost" "5432" "public") := by
  refine ⟨rfl, ?_, ?_⟩
  · exact (C2_postgres_no_migration pgConfig okOracle emptyFS rfl).1 migrateDir
  · exact ((C2_postgres_no_migration pgConfig okOracle emptyFS rfl).2 rfl).2

/-- C3: with the engine kind different from `"postgres"`, a completing
run binds `DB` to the handle built by `connect` from the single
connection-URL string, and the migration `Router` is invoked exactly
once, before the module finishes (the trace ends with the `Router` run
followed by the final reconnect). -/
theorem C3_generic_migrates_once (cfg : Config) (o : Oracle) (fs0 : FS)
    (heng : cfg.DB_ENGINE ≠ "postgres")
    (hok : (bootstrap cfg o fs0).outcome = Except.ok ()) :
    (bootstrap cfg o fs0).db =
      some (Handle.url (o.backendClass cfg.DATABASE_URL) cfg.DATABASE_URL) ∧
    (bootstrap cfg o fs0).trace.count (Event.routerRun migrateDir) = 1 ∧
    (∃ t, (bootstrap cfg o fs0).trace =
        t ++ [Event.routerRun migrateDir, Event.dbConnect true] ∧
        Event.routerRun migrateDir ∉ t) := by
  cases hb : FS.pathExists fs0 (oldPath cfg) with
  | false =>
    rw [bootstrap_absent cfg o fs0 hb] at hok ⊢
    obtain ⟨hc, hr, hd⟩ := enginePhase_ok_generic cfg o fs0 heng hok
    rw [enginePhase_generic_ok cfg o fs0 heng hc hr hd]
    refine ⟨rfl, by simp, ?_⟩
    exact ⟨[Event.connectUrl cfg.DATABASE_URL,
            Event.logInfo (connectedMsg (o.backendClass cfg.DATABASE_URL))],
           by simp, by simp⟩
  | true =>
    rcases hre : o.renameErr with _ | e
    · rw [bootstrap_present_ok cfg o fs0 hb hre] at hok ⊢
      have hok2 : (enginePhase cfg o
          (FS.rename fs0 (oldPath cfg) (newPath cfg))).outcome = Except.ok () := hok
      obtain ⟨hc, hr, hd⟩ := enginePhase_ok_generic cfg o _ heng hok2
      rw [enginePhase_generic_ok cfg o _ heng hc hr hd]
      refine ⟨rfl, by simp, ?_⟩
      exact ⟨[Event.renamed (oldPath cfg) (newPath cfg),
              Event.logInfo migratedMsg,
              Event.connectUrl cfg.DATABASE_URL,
              Event.logInfo (connectedMsg (o.backendClass cfg.DATABASE_URL))],
             by simp, by simp⟩
    · rw [bootstrap_present_err cfg o fs0 e hb hre] at hok
      exact absurd hok (by simp)

/-- Witness for C3 at a concrete sqlite configuration. -/
theorem C3_generic_migrates_once_witness :
    sqliteConfig.DB_ENGINE ≠ "postgres" ∧
    (bootstrap sqliteConfig okOracle emptyFS).outcome = Except.ok () ∧
    (bootstrap sqliteConfig okOracle emptyFS).trace.count
      (Event.routerRun migrateDir) = 1 := by
  refine ⟨by decide, rfl, ?_⟩
  exact (C3_generic_migrates_once sqliteConfig okOracle emptyFS (by decide) rfl).2.1

/-- C4 counterexample: with both `/data/ollama.db` and `/data/webui.db`
present, the run completes without any error and afterwards
`/data/webui.db` holds the legacy file's content — the POSIX rename
silently discarded the previous `webui.db` content, contradicting the
claim that its content is never silently discarded. -/
theorem C4_counterexample :
    bothFS "/data/webui.db" = some "precious-data" ∧
    (bootstrap pgConfig okOracle bothFS).outcome = Except.ok () ∧
    (bootstrap pgConfig okOracle bothFS).fs "/data/webui.db" = some "legacy-data" ∧
    Event.logInfo migratedMsg ∈ (bootstrap pgConfig okOracle bothFS).trace := by
  exact ⟨rfl, rfl, rfl, by decide⟩

/-- C4 (amended): when the OS reports an error from the rename, it
propagates uncaught as the run's outcome, `DB` stays unset, and the
filesystem is untouched — nothing is lost; but when the rename succeeds,
the destination path simply receives the legacy file's content, silently
replacing whatever file was there (POSIX `os.rename` semantics). -/
theorem C4_rename_error_fatal_else_overwrite (cfg : Config) (o : Oracle)
    (fs0 : FS) (e : String) :
    (FS.pathExists fs0 (oldPath cfg) = true → o.renameErr = some e →
       (bootstrap cfg o fs0).outcome = Except.error e ∧
       (bootstrap cfg o fs0).db = none ∧
       (bootstrap cfg o fs0).fs = fs0 ∧
       (bootstrap cfg o fs0).trace = []) ∧
    (FS.pathExists fs0 (oldPath cfg) = true → o.renameErr = none →
       (bootstrap cfg o fs0).fs (newPath cfg) = fs0 (oldPath cfg)) := by
  constructor
  · intro hex hre
    rw [bootstrap_present_err cfg o fs0 e hex hre]
    exact ⟨rfl, rfl, rfl, rfl⟩
  · intro hex hre
    rw [bootstrap_present_ok cfg o fs0 hex hre]
    show (enginePhase cfg o (FS.rename fs0 (oldPath cfg) (newPath cfg))).fs
      (newPath cfg) = fs0 (oldPath cfg)
    rw [enginePhase_fs]
    exact FS.rename_dst fs0 _ _

/-- Witness for the amended C4: a failing rename surfaces as the run's
outcome, and a succeeding rename moves the legacy content onto the
destination. -/
theorem C4_rename_error_fatal_else_overwrite_witness :
    FS.pathExists bothFS (oldPath pgConfig) = true ∧
    failRenameOracle.renameErr = some "PermissionError" ∧
    (bootstrap pgConfig failRenameOracle bothFS).outcome =
      Except.error "PermissionError" ∧
    (bootstrap pgConfig okOracle bothFS).fs (newPath pgConfig) =
      bothFS (oldPath pgConfig) := by
  refine ⟨by decide, rfl, ?_, ?_⟩
  · exact ((C4_rename_error_fatal_else_overwrite pgConfig failRenameOracle bothFS
      "PermissionError").1 (by decide) rfl).1
  · exact (C4_rename_error_fatal_else_overwrite pgConfig okOracle bothFS
      "unused").2 (by decide) rfl

/-- C5: every failure of an external call — the OS rename, `connect`,
`router.run()`, the final `DB.connect(reuse_if_open=True)` — becomes the
outcome of the whole run (nothing is caught locally), and a run that
completes has `DB` bound to a handle and, on the generic path, has run
the migration `Router` and reconnected. -/
theorem C5_failures_fatal (cfg : Config) (o : Oracle) (fs0 : FS) (e : String) :
    (FS.pathExists fs0 (oldPath cfg) = true → o.renameErr = some e →
       (bootstrap cfg o fs0).outcome = Except.error e) ∧
    (o.renameErr = none → cfg.DB_ENGINE ≠ "postgres" → o.connectErr = some e →
       (bootstrap cfg o fs0).outcome = Except.error e) ∧
    (o.renameErr = none → cfg.DB_ENGINE ≠ "postgres" → o.connectErr = none →
       o.routerRunErr = some e →
       (bootstrap cfg o fs0).outcome = Except.error e) ∧
    (o.renameErr = none → cfg.DB_ENGINE ≠ "postgres" → o.connectErr = none →
       o.routerRunErr = none → o.dbConnectErr = some e →
       (bootstrap cfg o fs0).outcome = Except.error e) ∧
    ((bootstrap cfg o fs0).outcome = Except.ok () →
       (∃ h, (bootstrap cfg o fs0).db = some h) ∧
       (cfg.DB_ENGINE ≠ "postgres" →
          Event.routerRun migrateDir ∈ (bootstrap cfg o fs0).trace ∧
          Event.dbConnect true ∈ (bootstrap cfg o fs0).trace)) := by
  refine ⟨?_, ?_, ?_, ?_, ?_⟩
  · intro hex hre
    rw [bootstrap_present_err cfg o fs0 e hex hre]
  · intro hren heng hc
    cases hb : FS.pathExists fs0 (oldPath cfg) with
    | false =>
      rw [bootstrap_absent cfg o fs0 hb,
          enginePhase_connect_err cfg o fs0 e heng hc]
    | true =>
      rw [bootstrap_present_ok cfg o fs0 hb hren]
      show (enginePhase cfg o _).outcome = Except.error e
      rw [enginePhase_connect_err cfg o _ e heng hc]
  · intro hren heng hc hr
    cases hb : FS.pathExists fs0 (oldPath cfg) with
    | false =>
      rw [bootstrap_absent cfg o fs0 hb,
          enginePhase_router_err cfg o fs0 e heng hc hr]
    | true =>
      rw [bootstrap_present_ok cfg o fs0 hb hren]
      show (enginePhase cfg o _).outcome = Except.error e
      rw [enginePhase_router_err cfg o _ e heng hc hr]
  · intro hren heng hc hr hd
    cases hb : FS.pathExists fs0 (oldPath cfg) with
    | false =>
      rw [bootstrap_absent cfg o fs0 hb,
          enginePhase_dbconnect_err cfg o fs0 e heng hc hr hd]
    | true =>
      rw [bootstrap_present_ok cfg o fs0 hb hren]
      show (enginePhase cfg o _).outcome = Except.error e
      rw [enginePhase_dbconnect_err cfg o _ e heng hc hr hd]
  · intro hok
    cases hb : FS.pathExists fs0 (oldPath cfg) with
    | false =>
      rw [bootstrap_absent cfg o fs0 hb] at hok ⊢
      by_cases heng : cfg.DB_ENGINE = "postgres"
      · rw [enginePhase_postgres cfg o fs0 heng]
        exact ⟨⟨_, rfl⟩, fun h => absurd heng h⟩
      · obtain ⟨hc, hr, hd⟩ := enginePhase_ok_generic cfg o fs0 heng hok
        rw [enginePhase_generic_ok cfg o fs0 heng hc hr hd]
        exact ⟨⟨_, rfl⟩, fun _ => ⟨by simp, by simp⟩⟩
    | true =>
      rcases hre : o.renameErr with _ | e2
      · rw [bootstrap_present_ok cfg o fs0 hb hre] at hok ⊢
        have hok2 : (enginePhase cfg o
            (FS.rename fs0 (oldPath cfg) (newPath cfg))).outcome =
            Except.ok () := hok
        by_cases heng : cfg.DB_ENGINE = "postgres"
        · rw [enginePhase_postgres cfg o _ heng]
          exact ⟨⟨_, rfl⟩, fun h => absurd heng h⟩
        · obtain ⟨hc, hr, hd⟩ := enginePhase_ok_generic cfg o _ heng hok2
          rw [enginePhase_generic_ok cfg o _ heng hc hr hd]
          exact ⟨⟨_, rfl⟩, fun _ => ⟨by simp, by simp⟩⟩
      · rw [bootstrap_present_err cfg o fs0 e2 hb hre] at hok
        exact absurd hok (by simp)

/-- Witness for C5: a failing `router.run()` terminates the run with
that very error. -/
theorem C5_failures_fatal_witness :
    failRouterOracle.renameErr = none ∧
    sqliteConfig.DB_ENGINE ≠ "postgres" ∧
    failRouterOracle.connectErr = none ∧
    failRouterOracle.routerRunErr = some "MigrationError" ∧
    (bootstrap sqliteConfig failRouterOracle emptyFS).outcome =
      Except.error "MigrationError" := by
  refine ⟨rfl, by decide, rfl, rfl, ?_⟩
  exact (C5_failures_fatal sqliteConfig failRouterOracle emptyFS
    "MigrationError").2.2.1 rfl (by decide) rfl rfl

/-- C6: the legacy-file migration is idempotent. After any first run
whose rename did not fail, the legacy path is empty; hence a second run,
under any oracle, performs no rename, emits no migration log line, and is
insensitive to whether the OS rename would fail — no rename error can
arise. -/
theorem C6_idempotent (cfg : Config) (o o2 : Oracle) (fs0 : FS)
    (hren : o.renameErr = none) :
    FS.pathExists (bootstrap cfg o fs0).fs (oldPath cfg) = false ∧
    (∀ s d, Event.renamed s d ∉
       (bootstrap cfg o2 ((bootstrap cfg o fs0).fs)).trace) ∧
    Event.logInfo migratedMsg ∉
      (bootstrap cfg o2 ((bootstrap cfg o fs0).fs)).trace ∧
    bootstrap cfg o2 ((bootstrap cfg o fs0).fs) =
      bootstrap cfg { o2 with renameErr := none } ((bootstrap cfg o fs0).fs) := by
  have habs : FS.pathExists (bootstrap cfg o fs0).fs (oldPath cfg) = false := by
    cases hb : FS.pathExists fs0 (oldPath cfg) with
    | false =>
      rw [bootstrap_absent cfg o fs0 hb]
      rw [enginePhase_fs]
      exact hb
    | true =>
      rw [bootstrap_present_ok cfg o fs0 hb hren]
      show FS.pathExists (enginePhase cfg o _).fs (oldPath cfg) = false
      rw [enginePhase_fs]
      exact FS.pathExists_rename_src fs0 _ _ (oldPath_ne_newPath cfg)
  refine ⟨habs, ?_, ?_, ?_⟩
  · rw [bootstrap_absent cfg o2 _ habs]
    exact (enginePhase_no_rename cfg o2 _).1
  · rw [bootstrap_absent cfg o2 _ habs]
    exact (enginePhase_no_rename cfg o2 _).2
  · rw [bootstrap_absent cfg o2 _ habs,
        bootstrap_absent cfg { o2 with renameErr := none } _ habs]
    rfl

/-- Witness for C6 at a concrete run starting from the legacy file. -/
theorem C6_idempotent_witness :
    okOracle.renameErr = none ∧
    FS.pathExists (bootstrap sqliteConfig okOracle legacyFS).fs
      (oldPath sqliteConfig) = false ∧
    Event.logInfo migratedMsg ∉
      (bootstrap sqliteConfig okOracle
        ((bootstrap sqliteConfig okOracle legacyFS).fs)).trace := by
  refine ⟨rfl, ?_, ?_⟩
  · exact (C6_idempotent sqliteConfig okOracle okOracle legacyFS rfl).1
  · exact (C6_idempotent sqliteConfig okOracle okOracle legacyFS rfl).2.2.1

/-- On the generic branch the engine phase never emits a postgres
connection event. -/
theorem enginePhase_no_postgres (cfg : Config) (o : Oracle) (fs1 : FS)
    (h : cfg.DB_ENGINE ≠ "postgres") :
    ∀ n u p hs pt sc, Event.connectPostgres n u p hs pt sc ∉
      (enginePhase cfg o fs1).trace := by
  intro n u p hs pt sc
  rcases hc : o.connectErr with _ | e
  · rcases hr : o.routerRunErr with _ | e
    · rcases hd : o.dbConnectErr with _ | e
      · rw [enginePhase_generic_ok cfg o fs1 h hc hr hd]; simp
      · rw [enginePhase_dbconnect_err cfg o fs1 e h hc hr hd]; simp
    · rw [enginePhase_router_err cfg o fs1 e h hc hr]; simp
  · rw [enginePhase_connect_err cfg o fs1 e h hc]; simp

/-- On the generic branch, when `connect` does not raise, the engine
phase records the URL connection. -/
theorem enginePhase_connectUrl_mem (cfg : Config) (o : Oracle) (fs1 : FS)
    (h : cfg.DB_ENGINE ≠ "postgres") (hc : o.connectErr = none) :
    Event.connectUrl cfg.DATABASE_URL ∈ (enginePhase cfg o fs1).trace := by
  rcases hr : o.routerRunErr with _ | e
  · rcases hd : o.dbConnectErr with _ | e
    · rw [enginePhase_generic_ok cfg o fs1 h hc hr hd]; simp
    · rw [enginePhase_dbconnect_err cfg o fs1 e h hc hr hd]; simp
  · rw [enginePhase_router_err cfg o fs1 e h hc hr]; simp

/-- The run of one configuration equals the run of another when they
share the data directory and their engine phases agree. -/
theorem bootstrap_engine_congr (cfg cfg2 : Config) (o : Oracle) (fs0 : FS)
    (hdd : cfg2.DATA_DIR = cfg.DATA_DIR)
    (hE : ∀ fs1, enginePhase cfg2 o fs1 = enginePhase cfg o fs1) :
    bootstrap cfg2 o fs0 = bootstrap cfg o fs0 := by
  have hold : oldPath cfg2 = oldPath cfg := by simp [oldPath, hdd]
  have hnew : newPath cfg2 = newPath cfg := by simp [newPath, hdd]
  cases hb : FS.pathExists fs0 (oldPath cfg) with
  | false =>
    have hb2 : FS.pathExists fs0 (oldPath cfg2) = false := by rw [hold]; exact hb
    rw [bootstrap_absent cfg2 o fs0 hb2, bootstrap_absent cfg o fs0 hb, hE]
  | true =>
    have hb2 : FS.pathExists fs0 (oldPath cfg2) = true := by rw [hold]; exact hb
    rcases hre : o.renameErr with _ | e
    · rw [bootstrap_present_ok cfg2 o fs0 hb2 hre,
          bootstrap_present_ok cfg o fs0 hb hre, hold, hnew, hE]
    · rw [bootstrap_present_err cfg2 o fs0 e hb2 hre,
          bootstrap_present_err cfg o fs0 e hb hre]

/-- C7: in a run where the legacy file is present (and the OS rename does
not fail), the trace begins with the rename and its log line; no further
rename happens, every connection event — postgres or generic — comes
after both, and the legacy file is already gone from the old path in the
run's final filesystem. -/
theorem C7_rename_before_connect (cfg : Config) (o : Oracle) (fs0 : FS)
    (hex : FS.pathExists fs0 (oldPath cfg) = true) (hren : o.renameErr = none) :
    ∃ t, (bootstrap cfg o fs0).trace =
        Event.renamed (oldPath cfg) (newPath cfg) ::
        Event.logInfo migratedMsg :: t ∧
      (∀ s d, Event.renamed s d ∉ t) ∧
      (∀ n u p hs pt sc, Event.connectPostgres n u p hs pt sc ∈
          (bootstrap cfg o fs0).trace →
          Event.connectPostgres n u p hs pt sc ∈ t) ∧
      (∀ u, Event.connectUrl u ∈ (bootstrap cfg o fs0).trace →
          Event.connectUrl u ∈ t) ∧
      FS.pathExists (bootstrap cfg o fs0).fs (oldPath cfg) = false := by
  rw [bootstrap_present_ok cfg o fs0 hex hren]
  refine ⟨(enginePhase cfg o (FS.rename fs0 (oldPath cfg) (newPath cfg))).trace,
      rfl, ?_, ?_, ?_, ?_⟩
  · exact (enginePhase_no_rename cfg o _).1
  · intro n u p hs pt sc hmem
    simpa using hmem
  · intro u hmem
    simpa using hmem
  · show FS.pathExists
      (enginePhase cfg o (FS.rename fs0 (oldPath cfg) (newPath cfg))).fs
      (oldPath cfg) = false
    rw [enginePhase_fs]
    exact FS.pathExists_rename_src fs0 _ _ (oldPath_ne_newPath cfg)

/-- Witness for C7 at a concrete legacy filesystem. -/
theorem C7_rename_before_connect_witness :
    FS.pathExists legacyFS (oldPath sqliteConfig) = true ∧
    okOracle.renameErr = none ∧
    ∃ t, (bootstrap sqliteConfig okOracle legacyFS).trace =
        Event.renamed (oldPath sqliteConfig) (newPath sqliteConfig) ::
        Event.logInfo migratedMsg :: t := by
  refine ⟨by decide, rfl, ?_⟩
  obtain ⟨t, ht, -⟩ :=
    C7_rename_before_connect sqliteConfig okOracle legacyFS (by decide) rfl
  exact ⟨t, ht⟩

/-- C8: engine selection is exact string equality with `"postgres"`:
that value takes the postgres mechanism and never the URL mechanism or
the Router; any other value (case variants such as `"Postgres"`
included) never builds a postgres connection and, when `connect` does
not raise, connects through the URL mechanism. -/
theorem C8_exact_match (cfg : Config) (o : Oracle) (fs0 : FS)
    (hren : o.renameErr = none) :
    (cfg.DB_ENGINE = "postgres" →
       Event.connectPostgres cfg.DB_NAME cfg.DB_USER cfg.DB_PASSWORD
         cfg.DB_HOST cfg.DB_PORT cfg.DB_SCHEMA ∈ (bootstrap cfg o fs0).trace ∧
       (∀ u, Event.connectUrl u ∉ (bootstrap cfg o fs0).trace)) ∧
    (cfg.DB_ENGINE ≠ "postgres" →
       (∀ n u p hs pt sc, Event.connectPostgres n u p hs pt sc ∉
          (bootstrap cfg o fs0).trace) ∧
       (o.connectErr = none →
          Event.connectUrl cfg.DATABASE_URL ∈ (bootstrap cfg o fs0).trace)) := by
  constructor
  · intro heng
    cases hb : FS.pathExists fs0 (oldPath cfg) with
    | false =>
      rw [bootstrap_absent cfg o fs0 hb, enginePhase_postgres cfg o fs0 heng]
      exact ⟨by simp, by simp⟩
    | true =>
      rw [bootstrap_present_ok cfg o fs0 hb hren,
          enginePhase_postgres cfg o _ heng]
      exact ⟨by simp, by simp⟩
  · intro heng
    cases hb : FS.pathExists fs0 (oldPath cfg) with
    | false =>
      rw [bootstrap_absent cfg o fs0 hb]
      exact ⟨enginePhase_no_postgres cfg o fs0 heng,
             fun hc => enginePhase_connectUrl_mem cfg o fs0 heng hc⟩
    | true =>
      rw [bootstrap_present_ok cfg o fs0 hb hren]
      constructor
      · intro n u p hs pt sc hmem
        have := enginePhase_no_postgres cfg o
          (FS.rename fs0 (oldPath cfg) (newPath cfg)) heng n u p hs pt sc
        simp at hmem
        exact this hmem
      · intro hc
        have := enginePhase_connectUrl_mem cfg o
          (FS.rename fs0 (oldPath cfg) (newPath cfg)) heng hc
        simp
        exact this

/-- Witness for C8: the case variant `"Postgres"` takes the generic
path. -/
theorem C8_exact_match_witness :
    casePgConfig.DB_ENGINE = "Postgres" ∧
    casePgConfig.DB_ENGINE ≠ "postgres" ∧
    (∀ n u p hs pt sc, Event.connectPostgres n u p hs pt sc ∉
       (bootstrap casePgConfig okOracle emptyFS).trace) ∧
    Event.connectUrl casePgConfig.DATABASE_URL ∈
      (bootstrap casePgConfig okOracle emptyFS).trace := by
  refine ⟨rfl, by decide, ?_, ?_⟩
  · exact ((C8_exact_match casePgConfig okOracle emptyFS rfl).2 (by decide)).1
  · exact ((C8_exact_match casePgConfig okOracle emptyFS rfl).2 (by decide)).2 rfl

/-- C9: the run reads only the taken branch's configuration. On the
postgres branch, varying the connection-URL string changes nothing about
the run; on the generic branch, varying the six structured parameters
changes nothing about the run. -/
theorem C9_branch_noninterference (cfg : Config) (o : Oracle) (fs0 : FS)
    (url n u p hs pt sc : String) :
    (cfg.DB_ENGINE = "postgres" →
       bootstrap { cfg with DATABASE_URL := url } o fs0 = bootstrap cfg o fs0) ∧
    (cfg.DB_ENGINE ≠ "postgres" →
       bootstrap
         { cfg with DB_NAME := n, DB_USER := u, DB_PASSWORD := p,
                    DB_HOST := hs, DB_PORT := pt, DB_SCHEMA := sc } o fs0 =
         bootstrap cfg o fs0) := by
  constructor
  · intro heng
    refine bootstrap_engine_congr cfg _ o fs0 rfl ?_
    intro fs1
    rw [enginePhase_postgres { cfg with DATABASE_URL := url } o fs1 heng,
        enginePhase_postgres cfg o fs1 heng]
  · intro heng
    refine bootstrap_engine_congr cfg
      { cfg with DB_NAME := n, DB_USER := u, DB_PASSWORD := p,
                 DB_HOST := hs, DB_PORT := pt, DB_SCHEMA := sc } o fs0 rfl ?_
    intro fs1
    rcases hc : o.connectErr with _ | e
    · rcases hr : o.routerRunErr with _ | e
      · rcases hd : o.dbConnectErr with _ | e
        · rw [enginePhase_generic_ok
              { cfg with DB_NAME := n, DB_USER := u, DB_PASSWORD := p,
                         DB_HOST := hs, DB_PORT := pt, DB_SCHEMA := sc }
              o fs1 heng hc hr hd,
              enginePhase_generic_ok cfg o fs1 heng hc hr hd]
        · rw [enginePhase_dbconnect_err
              { cfg with DB_NAME := n, DB_USER := u, DB_PASSWORD := p,
                         DB_HOST := hs, DB_PORT := pt, DB_SCHEMA := sc }
              o fs1 e heng hc hr hd,
              enginePhase_dbconnect_err cfg o fs1 e heng hc hr hd]
      · rw [enginePhase_router_err
            { cfg with DB_NAME := n, DB_USER := u, DB_PASSWORD := p,
                       DB_HOST := hs, DB_PORT := pt, DB_SCHEMA := sc }
            o fs1 e heng hc hr,
            enginePhase_router_err cfg o fs1 e heng hc hr]
    · rw [enginePhase_connect_err
          { cfg with DB_NAME := n, DB_USER := u, DB_PASSWORD := p,
                     DB_HOST := hs, DB_PORT := pt, DB_SCHEMA := sc }
          o fs1 e heng hc,
          enginePhase_connect_err cfg o fs1 e heng hc]

/-- Witness for C9: on the postgres branch, replacing the connection URL
leaves the run unchanged. -/
theorem C9_branch_noninterference_witness :
    pgConfig.DB_ENGINE = "postgres" ∧
    bootstrap { pgConfig with DATABASE_URL := "mysql://other-host/db" }
      okOracle emptyFS = bootstrap pgConfig okOracle emptyFS := by
  exact ⟨rfl, (C9_branch_noninterference pgConfig okOracle emptyFS
    "mysql://other-host/db" "x" "x" "x" "x" "x" "x").1 rfl⟩

/-- C10: a run of the module body that completes always leaves the
global `DB` bound to a constructed handle — never at its initial
`None` — on either engine branch. -/
theorem C10_db_bound (cfg : Config) (o : Oracle) (fs0 : FS)
    (hok : (bootstrap cfg o fs0).outcome = Except.ok ()) :
    ∃ h, (bootstrap cfg o fs0).db = some h := by
  cases hb : FS.pathExists fs0 (oldPath cfg) with
  | false =>
    rw [bootstrap_absent cfg o fs0 hb] at hok ⊢
    by_cases heng : cfg.DB_ENGINE = "postgres"
    · rw [enginePhase_postgres cfg o fs0 heng]
      exact ⟨_, rfl⟩
    · obtain ⟨hc, hr, hd⟩ := enginePhase_ok_generic cfg o fs0 heng hok
      rw [enginePhase_generic_ok cfg o fs0 heng hc hr hd]
      exact ⟨_, rfl⟩
  | true =>
    rcases hre : o.renameErr with _ | e
    · rw [bootstrap_present_ok cfg o fs0 hb hre] at hok ⊢
      have hok2 : (enginePhase cfg o
          (FS.rename fs0 (oldPath cfg) (newPath cfg))).outcome =
          Except.ok () := hok
      by_cases heng : cfg.DB_ENGINE = "postgres"
      · rw [enginePhase_postgres cfg o _ heng]
        exact ⟨_, rfl⟩
      · obtain ⟨hc, hr, hd⟩ := enginePhase_ok_generic cfg o _ heng hok2
        rw [enginePhase_generic_ok cfg o _ heng hc hr hd]
        exact ⟨_, rfl⟩
    · rw [bootstrap_present_err cfg o fs0 e hb hre] at hok
      exact absurd hok (by simp)

/-- Witness for C10 at a completing concrete run. -/
theorem C10_db_bound_witness :
    (bootstrap pgConfig okOracle emptyFS).outcome = Except.ok () ∧
    ∃ h, (bootstrap pgConfig okOracle emptyFS).db = some h :=
  ⟨rfl, C10_db_bound pgConfig okOracle emptyFS rfl⟩

end OpenWebUIDB
